import Mathlib

/-!
Shallow embedding of the CardDAV client core of this repository
(`contact-manager/src/domain/card_repositories/remote_card_repository.rs`,
`contact-manager/src/domain/card_entity.rs`), together with theorems
settling the specification claims about it.

Modelling conventions:
* Timestamps (`chrono::DateTime<Utc>`) are modelled as integers denoting
  UTC instants (seconds since the epoch); only equality of instants matters
  to the verified properties.
* The HTTP transport (`reqwest::blocking::Client`) is modelled as a function
  from a request to either a send failure (`Except.error`) or a completed
  response.  A completed response carries its status code and its full body
  text (the separate `res.text()` step of the source cannot fail in the
  model; its failure is a transport-level stream error outside the shallow
  embedding).
* `anyhow` error values are classified into the error kinds named by the
  specification (`transport`, `parse`, `protocol`), each carrying the
  context message the source attaches.
* `todo!()` (a Rust panic) is modelled by a dedicated `panicked` outcome
  constructor, distinct from every error value, carrying the panic message
  `"not yet implemented"` that `todo!()` produces.
* XML deserialization (`quick_xml::de::from_str`) is external library code;
  each discovery stage takes the decoder for its leaf property type as a
  function from the body text to `Except String (Multistatus T)`, exactly
  the shape the source obtains from `xml::from_str`.
* `chrono::DateTime::parse_from_rfc2822` is external library code; it is a
  parameter `p : String → Option Timestamp` of the date-parser model,
  `p s = some t` meaning `s` is a valid RFC-2822 date denoting instant `t`.
-/

namespace Everest

/-- UTC instants, seconds since the Unix epoch. -/
abbrev Timestamp := Int

/-- `Card` from `card_entity.rs`. -/
structure Card where
  id : String
  date : Timestamp
  raw : String
deriving Repr, DecidableEq

/-- The error kinds of the specification, each carrying the context message
the source attaches to the `anyhow` error. -/
inductive CardError where
  | transport (msg : String)
  | parse (msg : String)
  | protocol (msg : String)
  | notImplemented
deriving Repr, DecidableEq

/-- Outcome of a repository operation: a value, a returned error, or a Rust
panic (which is not a returned value at all). -/
inductive Outcome (α : Type) where
  | ok (a : α)
  | error (e : CardError)
  | panicked (msg : String)
deriving Repr, DecidableEq

/-- A completed HTTP response: status code and full body text. -/
structure HttpResponse where
  status : Nat
  body : String
deriving Repr, DecidableEq

/-- An HTTP request as assembled by the source: method, absolute URL,
headers, body. -/
structure HttpRequest where
  method : String
  url : String
  headers : List (String × String)
  body : String
deriving Repr, DecidableEq

/-- The HTTP transport: a request either fails to send (`error`, the
`reqwest` error text) or yields a completed response. -/
abbrev HttpClient := HttpRequest → Except String HttpResponse

/-- `basic_auth("user", Some(""))`: the Authorization header added to every
request (base64 of `user:`). -/
def authHeader : String × String := ("Authorization", "Basic dXNlcjo=")

/-- `RemoteCardRepository` from `remote_card_repository.rs`. -/
structure RemoteCardRepository where
  addressbook_path : String
  client : HttpClient

/-- The PUT request assembled by `RemoteCardRepository::create`. -/
def createRequest (addressbook_path : String) (card : Card) : HttpRequest :=
  { method := "PUT"
    url := addressbook_path ++ card.id ++ ".vcf"
    headers := [("Content-Type", "text/vcard; charset=utf-8"), authHeader]
    body := card.raw }

/-- `RemoteCardRepository::create`: sends the PUT and ignores the response
entirely; only a send failure is an error. -/
def RemoteCardRepository.create (repo : RemoteCardRepository) (card : Card) :
    Outcome Unit :=
  match repo.client (createRequest repo.addressbook_path card) with
  | .error _ => .error (.transport "cannot send create request")
  | .ok _ => .ok ()

/-- The GET request assembled by `RemoteCardRepository::read`. -/
def readRequest (addressbook_path : String) (id : String) : HttpRequest :=
  { method := "GET"
    url := addressbook_path ++ id ++ ".vcf"
    headers := [authHeader, ("Depth", "1")]
    body := "" }

/-- The error message `cannot read card "{id}"`. -/
def readErrMsg (id : String) : String :=
  "cannot read card \"" ++ id ++ "\""

/-- `RemoteCardRepository::read`: sends the GET, requires status exactly
200, and on success builds a `Card` whose `raw` is the body text and whose
`date` is the current wall-clock time (`Utc::now()`, the `now` argument). -/
def RemoteCardRepository.read (repo : RemoteCardRepository) (now : Timestamp)
    (id : String) : Outcome Card :=
  match repo.client (readRequest repo.addressbook_path id) with
  | .error _ => .error (.transport (readErrMsg id))
  | .ok res =>
    if res.status ≠ 200 then .error (.protocol (readErrMsg id))
    else .ok { id := id, date := now, raw := res.body }

/-- `RemoteCardRepository::read_all` is `todo!()`: it panics. -/
def RemoteCardRepository.read_all (_repo : RemoteCardRepository) :
    Outcome (List Card) :=
  .panicked "not yet implemented"

/-- `RemoteCardRepository::update` is `todo!()`: it panics. -/
def RemoteCardRepository.update (_repo : RemoteCardRepository) (_card : Card) :
    Outcome Unit :=
  .panicked "not yet implemented"

/-- The DELETE request assembled by `RemoteCardRepository::delete`. -/
def deleteRequest (addressbook_path : String) (id : String) : HttpRequest :=
  { method := "DELETE"
    url := addressbook_path ++ id ++ ".vcf"
    headers := [authHeader]
    body := "" }

/-- `RemoteCardRepository::delete`: sends the DELETE and ignores the
response entirely; only a send failure is an error. -/
def RemoteCardRepository.delete (repo : RemoteCardRepository) (id : String) :
    Outcome Unit :=
  match repo.client (deleteRequest repo.addressbook_path id) with
  | .error _ => .error (.transport "cannot send delete request")
  | .ok _ => .ok ()

/-! ## Multistatus envelope (the "Common structs" of the source) -/

/-- `Href`: a resource URL decoded from element text. -/
structure Href where
  value : String
deriving Repr, DecidableEq

/-- `Status`: an HTTP status line decoded from element text. -/
structure Status where
  value : String
deriving Repr, DecidableEq

/-- `Propstat<T>`: the typed property payload plus an optional status line. -/
structure Propstat (T : Type) where
  prop : T
  status : Option Status
deriving Repr, DecidableEq

/-- `Response<T>`: one multistatus entry, an href plus its propstat. -/
structure DavResponse (T : Type) where
  href : Href
  propstat : Propstat T
deriving Repr, DecidableEq

/-- `Multistatus<T>`: the ordered sequence of entries of the envelope. -/
structure Multistatus (T : Type) where
  responses : List (DavResponse T)
deriving Repr, DecidableEq

/-- `quick_xml::de::from_str` at type `Multistatus<T>`: external library
code, modelled as a function from the body text to a decode result. -/
abbrev Decoder (T : Type) := String → Except String (Multistatus T)

/-! ## Leaf property shapes of the discovery stages -/

/-- `CurrentUserPrincipal`: a single href. -/
structure CurrentUserPrincipal where
  href : Href
deriving Repr, DecidableEq

/-- `CurrentUserPrincipalProp`: the (mandatory) `current-user-principal`
element of a stage-1 entry. -/
structure CurrentUserPrincipalProp where
  current_user_principal : CurrentUserPrincipal
deriving Repr, DecidableEq

/-- `AddressbookHomeSet`: a single href. -/
structure AddressbookHomeSet where
  href : Href
deriving Repr, DecidableEq

/-- `AddressbookHomeSetProp`: the (mandatory) `addressbook-home-set`
element of a stage-2 entry. -/
structure AddressbookHomeSetProp where
  addressbook_home_set : AddressbookHomeSet
deriving Repr, DecidableEq

/-- `Addressbook`: the empty marker struct; its presence, not its value,
signals an addressbook collection. -/
structure Addressbook where
deriving Repr, DecidableEq

/-- `AddressbookResourceType`: an optional addressbook marker. -/
structure AddressbookResourceType where
  addressbook : Option Addressbook
deriving Repr, DecidableEq

/-- `AddressbookProp`: the `resourcetype` element of a stage-3 entry. -/
structure AddressbookProp where
  resourcetype : AddressbookResourceType
deriving Repr, DecidableEq

/-! ## Discovery stages -/

/-- A `PROPFIND` request with basic auth, as assembled by the discovery
stages. -/
def propfindRequest (url : String) (body : String) : HttpRequest :=
  { method := "PROPFIND", url := url, headers := [authHeader], body := body }

/-- The stage-1 request body (`current-user-principal`), whitespace
normalized. -/
def currentUserPrincipalBody : String :=
  "<D:propfind xmlns:D=\"DAV:\"><D:prop><D:current-user-principal /></D:prop></D:propfind>"

/-- The stage-2 request body (`addressbook-home-set`), whitespace
normalized. -/
def addressbookHomeSetBody : String :=
  "<D:propfind xmlns:D=\"DAV:\" xmlns:C=\"urn:ietf:params:xml:ns:carddav\"><D:prop><C:addressbook-home-set /></D:prop></D:propfind>"

/-- The pure resolution step of `fetch_current_user_principal_url`: the
first entry's href if any entry exists, else the input path. -/
def resolveCurrentUserPrincipal (ms : Multistatus CurrentUserPrincipalProp)
    (path : String) : String :=
  (ms.responses.head?.map fun r =>
    r.propstat.prop.current_user_principal.href.value).getD path

/-- `fetch_current_user_principal_url`: PROPFIND to `{host}{path}`, decode
the body, then resolve. -/
def fetch_current_user_principal_url (host : String) (path : String)
    (client : HttpClient) (dec : Decoder CurrentUserPrincipalProp) :
    Except CardError String :=
  match client (propfindRequest (host ++ path) currentUserPrincipalBody) with
  | .error _ => .error (.transport "cannot send current user principal request")
  | .ok res =>
    match dec res.body with
    | .error _ => .error (.parse "cannot parse current user principal response")
    | .ok ms => .ok (resolveCurrentUserPrincipal ms path)

/-- The pure resolution step of `fetch_addressbook_home_set_url`: the first
entry's href if any entry exists, else the input path. -/
def resolveAddressbookHomeSet (ms : Multistatus AddressbookHomeSetProp)
    (path : String) : String :=
  (ms.responses.head?.map fun r =>
    r.propstat.prop.addressbook_home_set.href.value).getD path

/-- `fetch_addressbook_home_set_url`: PROPFIND to `{host}{path}`, decode
the body, then resolve. -/
def fetch_addressbook_home_set_url (host : String) (path : String)
    (client : HttpClient) (dec : Decoder AddressbookHomeSetProp) :
    Except CardError String :=
  match client (propfindRequest (host ++ path) addressbookHomeSetBody) with
  | .error _ => .error (.transport "cannot send addressbook home set request")
  | .ok res =>
    match dec res.body with
    | .error _ => .error (.parse "cannot parse addressbook home set response")
    | .ok ms => .ok (resolveAddressbookHomeSet ms path)

/-- Rust's `str::ends_with`, modelled on the character sequence. -/
def endsWithRust (s suffix : String) : Bool :=
  suffix.data.isSuffixOf s.data

/-- The stage-3 entry filter of `fetch_addressbook_url`: status present and
ending with `200 OK`, and the addressbook marker present. -/
def addressbookEntryValid (r : DavResponse AddressbookProp) : Bool :=
  ((r.propstat.status.map fun s => endsWithRust s.value "200 OK").getD false)
    && r.propstat.prop.resourcetype.addressbook.isSome

/-- The pure resolution step of `fetch_addressbook_url`: the href of the
first valid entry, else the input path. -/
def resolveAddressbook (ms : Multistatus AddressbookProp) (path : String) :
    String :=
  ((ms.responses.find? addressbookEntryValid).map fun r => r.href.value).getD path

/-- `fetch_addressbook_url`: PROPFIND sent to the bare `host` (not
`{host}{path}`), with no body; decode, then resolve with `path` as the
fallback. -/
def fetch_addressbook_url (host : String) (path : String)
    (client : HttpClient) (dec : Decoder AddressbookProp) :
    Except CardError String :=
  match client (propfindRequest host "") with
  | .error _ => .error (.transport "cannot send addressbook request")
  | .ok res =>
    match dec res.body with
    | .error _ => .error (.parse "cannot parse addressbook response")
    | .ok ms => .ok (resolveAddressbook ms path)

/-- `addressbook_path`: the three discovery stages chained in order,
starting from path `"/"`. -/
def addressbook_path (host : String) (client : HttpClient)
    (dec1 : Decoder CurrentUserPrincipalProp)
    (dec2 : Decoder AddressbookHomeSetProp)
    (dec3 : Decoder AddressbookProp) : Except CardError String := do
  let path := "/"
  let path ← fetch_current_user_principal_url host path client dec1
  let path ← fetch_addressbook_home_set_url host path client dec2
  let path ← fetch_addressbook_url host path client dec3
  pure path

/-- `RemoteCardRepository::new`: runs discovery and stores
`host ++ resolved_path` as the repository's `addressbook_path`. -/
def RemoteCardRepository.new (host : String) (client : HttpClient)
    (dec1 : Decoder CurrentUserPrincipalProp)
    (dec2 : Decoder AddressbookHomeSetProp)
    (dec3 : Decoder AddressbookProp) : Except CardError RemoteCardRepository :=
  (Everest.addressbook_path host client dec1 dec2 dec3).map fun p =>
    { addressbook_path := host ++ p, client := client }

/-! ## Date parser (`date_parser::deserialize`) -/

/-- `date_parser::deserialize`: deserialize the element text, then parse it
with `DateTime::parse_from_rfc2822` (the external parser `p`); a parse
failure becomes a decode error, never a default value. -/
def date_parser_deserialize (p : String → Option Timestamp) (s : String) :
    Except String Timestamp :=
  match p s with
  | some d => .ok d
  | none => .error ("invalid rfc2822 date: " ++ s)

/-! ## Concrete transports and decoders used to instantiate hypotheses -/

/-- A transport answering every request with a 404 and empty body. -/
def client404 : HttpClient := fun _ => .ok { status := 404, body := "" }

/-- A transport answering every request with a 200 and a fixed vCard body. -/
def client200 : HttpClient := fun _ => .ok { status := 200, body := "BEGIN:VCARD" }

/-- A transport answering every request with a 500 server rejection. -/
def client500 : HttpClient := fun _ => .ok { status := 500, body := "oops" }

/-- A transport that fails to send every request. -/
def clientDown : HttpClient := fun _ => .error "connection refused"

/-- A transport answering every request with a 207 and empty body. -/
def client207 : HttpClient := fun _ => .ok { status := 207, body := "" }

/-- A decoder producing an empty stage-1 envelope from any body. -/
def emptyDec1 : Decoder CurrentUserPrincipalProp := fun _ => .ok { responses := [] }

/-- A decoder producing an empty stage-2 envelope from any body. -/
def emptyDec2 : Decoder AddressbookHomeSetProp := fun _ => .ok { responses := [] }

/-- A decoder producing an empty stage-3 envelope from any body. -/
def emptyDec3 : Decoder AddressbookProp := fun _ => .ok { responses := [] }

/-- A sample card used to instantiate theorems. -/
def sampleCard : Card :=
  { id := "8f16d8b5-7e3a-6cd9-fa49-fc6cea65db2a", date := 0, raw := "BEGIN:VCARD" }

/-! ## The storing-server model for the round-trip property -/

/-- A server store: URLs mapped to the stored resource bodies. -/
abbrev StoreState := String → Option String

/-- One request processed by a server that stores what was put: `PUT`
stores the request body at the request URL; `GET` returns 200 with the
stored body, or 404 when nothing is stored there. -/
def storeStep (st : StoreState) (req : HttpRequest) : StoreState × HttpResponse :=
  if req.method = "PUT" then
    (fun u => if u = req.url then some req.body else st u, { status := 201, body := "" })
  else if req.method = "GET" then
    match st req.url with
    | some b => (st, { status := 200, body := b })
    | none => (st, { status := 404, body := "Not Found" })
  else (st, { status := 207, body := "" })

/-- The transport view of a storing server in state `st`: every request is
delivered and answered by `storeStep`. -/
def storeClient (st : StoreState) : HttpClient :=
  fun req => .ok (storeStep st req).2

/-! ## Helper lemmas -/

/-- `Except.bind` applied to a success value reduces to the continuation. -/
theorem except_ok_bind {ε α β : Type} (a : α) (f : α → Except ε β) :
    (Except.ok (ε := ε) a >>= f) = f a := rfl

/-- `Except.map` applied to a success value maps the payload. -/
theorem except_map_ok {ε α β : Type} (g : α → β) (a : α) :
    Except.map g (Except.ok (ε := ε) a) = Except.ok (g a) := rfl

/-- `List.find?` returns the unique element satisfying the predicate when
every other satisfying element is equal to it. -/
theorem find_unique {α : Type} (p : α → Bool) (l : List α) (r : α)
    (hr : r ∈ l) (hp : p r = true) (huniq : ∀ x ∈ l, p x = true → x = r) :
    l.find? p = some r := by
  induction l with
  | nil => cases hr
  | cons a t ih =>
    by_cases ha : p a = true
    · have hae : a = r := huniq a (List.mem_cons_self a t) ha
      subst hae
      simp [List.find?_cons_of_pos _ ha]
    · have hne : p a = false := Bool.eq_false_iff.mpr ha
      have hr' : r ∈ t := by
        rcases List.mem_cons.mp hr with h | h
        · subst h; exact absurd hp ha
        · exact h
      have ih' := ih hr' (fun x hx hpx => huniq x (List.mem_cons_of_mem a hx) hpx)
      simpa [List.find?_cons_of_neg _ ha] using ih'

/-! ## Claim theorems -/

/-- C1: `read(id)` fails with a `ProtocolError` carrying the message
`cannot read card "{id}"` whenever the completed response's status is not
exactly 200; when the status is exactly 200 it returns a `Card` whose `raw`
is the full response body text and whose `id` is the input id. -/
theorem read_requires_status_200 (repo : RemoteCardRepository)
    (now : Timestamp) (id : String) (res : HttpResponse)
    (h : repo.client (readRequest repo.addressbook_path id) = .ok res) :
    (res.status ≠ 200 →
      repo.read now id =
        .error (.protocol ("cannot read card \"" ++ id ++ "\""))) ∧
    (res.status = 200 →
      repo.read now id = .ok { id := id, date := now, raw := res.body }) := by
  constructor <;> intro hs <;>
    simp [RemoteCardRepository.read, h, hs, readErrMsg]

/-- Witness for C1: a 404 response makes `read` fail with the protocol
error, and a 200 response yields the body as the card's raw text. -/
theorem read_requires_status_200_witness :
    ({ addressbook_path := "http://h/", client := client404 } :
        RemoteCardRepository).read 0 "abc" =
      .error (.protocol ("cannot read card \"" ++ "abc" ++ "\"")) ∧
    ({ addressbook_path := "http://h/", client := client200 } :
        RemoteCardRepository).read 0 "abc" =
      .ok { id := "abc", date := 0, raw := "BEGIN:VCARD" } :=
  ⟨(read_requires_status_200 _ 0 "abc" { status := 404, body := "" } rfl).1
      (by decide),
   (read_requires_status_200 _ 0 "abc" { status := 200, body := "BEGIN:VCARD" }
      rfl).2 rfl⟩

/-- C2: `create(card)` and `delete(id)` fail (with a `TransportError`) only
when the request cannot be sent; every completed round trip — whatever the
response status, 4xx and 5xx included — yields success. -/
theorem create_delete_ignore_response_status (repo : RemoteCardRepository)
    (card : Card) (id : String) (res res' : HttpResponse) (e e' : String) :
    (repo.client (createRequest repo.addressbook_path card) = .ok res →
      repo.create card = .ok ()) ∧
    (repo.client (createRequest repo.addressbook_path card) = .error e →
      repo.create card = .error (.transport "cannot send create request")) ∧
    (repo.client (deleteRequest repo.addressbook_path id) = .ok res' →
      repo.delete id = .ok ()) ∧
    (repo.client (deleteRequest repo.addressbook_path id) = .error e' →
      repo.delete id = .error (.transport "cannot send delete request")) := by
  refine ⟨fun h => ?_, fun h => ?_, fun h => ?_, fun h => ?_⟩ <;>
    simp [RemoteCardRepository.create, RemoteCardRepository.delete, h]

/-- Witness for C2: a 500 server rejection still makes `create` and
`delete` succeed, and an unsendable request makes them fail with the
transport error. -/
theorem create_delete_ignore_response_status_witness :
    ({ addressbook_path := "http://h/", client := client500 } :
        RemoteCardRepository).create sampleCard = .ok () ∧
    ({ addressbook_path := "http://h/", client := client500 } :
        RemoteCardRepository).delete "abc" = .ok () ∧
    ({ addressbook_path := "http://h/", client := clientDown } :
        RemoteCardRepository).create sampleCard =
      .error (.transport "cannot send create request") ∧
    ({ addressbook_path := "http://h/", client := clientDown } :
        RemoteCardRepository).delete "abc" =
      .error (.transport "cannot send delete request") :=
  ⟨(create_delete_ignore_response_status _ sampleCard "abc"
      { status := 500, body := "oops" } { status := 500, body := "oops" }
      "x" "x").1 rfl,
   (create_delete_ignore_response_status
      { addressbook_path := "http://h/", client := client500 } sampleCard "abc"
      { status := 500, body := "oops" } { status := 500, body := "oops" }
      "x" "x").2.2.1 rfl,
   (create_delete_ignore_response_status
      { addressbook_path := "http://h/", client := clientDown } sampleCard "abc"
      { status := 500, body := "oops" } { status := 500, body := "oops" }
      "connection refused" "connection refused").2.1 rfl,
   (create_delete_ignore_response_status
      { addressbook_path := "http://h/", client := clientDown } sampleCard "abc"
      { status := 500, body := "oops" } { status := 500, body := "oops" }
      "connection refused" "connection refused").2.2.2 rfl⟩

/-- C6 (code bug): `read_all` and `update` do not return a typed
`NotImplemented` error — they panic via `todo!()` with message
`not yet implemented`, which is never equal to any returned error value. -/
theorem read_all_update_panic (repo : RemoteCardRepository) (card : Card) :
    repo.read_all = .panicked "not yet implemented" ∧
    repo.update card = .panicked "not yet implemented" ∧
    (∀ e : CardError, repo.read_all ≠ .error e) ∧
    (∀ e : CardError, repo.update card ≠ .error e) := by
  refine ⟨rfl, rfl, fun e h => ?_, fun e h => ?_⟩ <;>
    simp [RemoteCardRepository.read_all, RemoteCardRepository.update] at h

/-- C8: against a server that stores what was put, `create(card)` followed
by `read(card.id)` succeeds and returns a card whose `raw` equals
`card.raw` and whose `id` equals `card.id`. -/
theorem create_then_read_round_trip (st : StoreState) (path : String)
    (card : Card) (now : Timestamp) :
    ({ addressbook_path := path, client := storeClient st } :
        RemoteCardRepository).create card = .ok () ∧
    ({ addressbook_path := path,
       client := storeClient (storeStep st (createRequest path card)).1 } :
        RemoteCardRepository).read now card.id =
      .ok { id := card.id, date := now, raw := card.raw } := by
  constructor
  · simp [RemoteCardRepository.create, storeClient]
  · simp [RemoteCardRepository.read, storeClient, storeStep, createRequest,
      readRequest, readErrMsg]

/-- C9: the date parser yields exactly the instant of a valid RFC-2822
string and turns every invalid string into a decode error naming the
string, never a default timestamp. -/
theorem date_parser_exact (p : String → Option Timestamp) (s : String) :
    (∀ t : Timestamp, p s = some t → date_parser_deserialize p s = .ok t) ∧
    (p s = none →
      date_parser_deserialize p s = .error ("invalid rfc2822 date: " ++ s)) ∧
    (∀ t : Timestamp, date_parser_deserialize p s = .ok t → p s = some t) := by
  refine ⟨fun t h => ?_, fun h => ?_, fun t h => ?_⟩
  · simp [date_parser_deserialize, h]
  · simp [date_parser_deserialize, h]
  · cases hp : p s with
    | some d =>
      simp [date_parser_deserialize, hp] at h
      simp [h]
    | none => simp [date_parser_deserialize, hp] at h

/-- An RFC-2822 parser accepting exactly the specification's example date,
mapped to its Unix epoch instant. -/
def rfc2822ExampleParse : String → Option Timestamp := fun s =>
  if s = "Wed, 21 Oct 2020 07:28:00 GMT" then some 1603265280 else none

/-- Witness for C9: the specification's example date decodes to its
instant, and a non-date string fails with the decode error. -/
theorem date_parser_exact_witness :
    date_parser_deserialize rfc2822ExampleParse "Wed, 21 Oct 2020 07:28:00 GMT"
      = .ok 1603265280 ∧
    date_parser_deserialize rfc2822ExampleParse "not a date"
      = .error ("invalid rfc2822 date: " ++ "not a date") :=
  ⟨(date_parser_exact rfc2822ExampleParse _).1 1603265280 (by decide),
   (date_parser_exact rfc2822ExampleParse "not a date").2.1 (by decide)⟩

/-- C10: in stages 1 and 2 the resolved path is the first entry's href
whenever at least one entry exists, whatever the remaining entries are. -/
theorem principal_and_home_set_use_first_entry (path : String)
    (r1 : DavResponse CurrentUserPrincipalProp)
    (rest1 : List (DavResponse CurrentUserPrincipalProp))
    (r2 : DavResponse AddressbookHomeSetProp)
    (rest2 : List (DavResponse AddressbookHomeSetProp)) :
    resolveCurrentUserPrincipal { responses := r1 :: rest1 } path =
      r1.propstat.prop.current_user_principal.href.value ∧
    resolveAddressbookHomeSet { responses := r2 :: rest2 } path =
      r2.propstat.prop.addressbook_home_set.href.value := by
  constructor <;> rfl

/-- C3: over a decoded stage-3 envelope, an entry with a `200 OK`-ending
status and a present addressbook marker, all other entries failing the
filter, makes its href the resolved path; when no entry passes the filter
the resolved path is the input path unchanged. -/
theorem addressbook_stage_resolution (path : String)
    (ms : Multistatus AddressbookProp) :
    (∀ r ∈ ms.responses, addressbookEntryValid r = true →
      (∀ x ∈ ms.responses, addressbookEntryValid x = true → x = r) →
      resolveAddressbook ms path = r.href.value) ∧
    ((∀ r ∈ ms.responses, ¬ addressbookEntryValid r = true) →
      resolveAddressbook ms path = path) := by
  constructor
  · intro r hr hp huniq
    simp [resolveAddressbook, find_unique _ _ r hr hp huniq]
  · intro habs
    have hfind : ms.responses.find? addressbookEntryValid = none :=
      List.find?_eq_none.mpr habs
    simp [resolveAddressbook, hfind]

/-- A stage-3 entry passing the filter: status ends in `200 OK`, marker
present. -/
def validEntry : DavResponse AddressbookProp :=
  { href := { value := "/addressbooks/user/contacts/" },
    propstat := { prop := { resourcetype := { addressbook := some {} } },
                  status := some { value := "HTTP/1.1 200 OK" } } }

/-- A stage-3 entry failing the filter: 404 status, no marker. -/
def malformedEntry : DavResponse AddressbookProp :=
  { href := { value := "/bad/" },
    propstat := { prop := { resourcetype := { addressbook := none } },
                  status := some { value := "HTTP/1.1 404 Not Found" } } }

/-- Witness for C3: with one malformed and one valid entry the valid
entry's href wins; with only the malformed entry the path is unchanged. -/
theorem addressbook_stage_resolution_witness :
    resolveAddressbook { responses := [malformedEntry, validEntry] } "/" =
      "/addressbooks/user/contacts/" ∧
    resolveAddressbook { responses := [malformedEntry] } "/" = "/" :=
  ⟨(addressbook_stage_resolution "/"
      { responses := [malformedEntry, validEntry] }).1 validEntry
      (by decide) (by decide) (by decide),
   (addressbook_stage_resolution "/" { responses := [malformedEntry] }).2
      (by decide)⟩

/-- A stage-3 decoder echoing the response body into the single valid
entry's href, so the resolved path reveals which response was decoded. -/
def c4dec : Decoder AddressbookProp := fun body =>
  .ok { responses := [
    { href := { value := body },
      propstat := { prop := { resourcetype := { addressbook := some {} } },
                    status := some { value := "HTTP/1.1 200 OK" } } } ] }

/-- A transport answering every request with the body
`/fromAccumulatedPath`. -/
def c4client2 : HttpClient := fun _ =>
  .ok { status := 207, body := "/fromAccumulatedPath" }

/-- A transport answering requests to the bare host `http://h` with the
body `/fromBareHost` and agreeing with `c4client2` everywhere else. -/
def c4client1 : HttpClient := fun req =>
  if req.url = "http://h" then .ok { status := 207, body := "/fromBareHost" }
  else c4client2 req

/-- C4 counterexample: two transports agreeing on the stage-3 request at
`{host}{path}` (path resolved by stage 2) but differing at the bare host
give different stage-3 results, and the result tracks the bare-host
response — so stage 3 does not send its request to `{host}{path}`. -/
theorem stage3_bare_host_counterexample :
    c4client1 (propfindRequest ("http://h" ++ "/p2") "") =
      c4client2 (propfindRequest ("http://h" ++ "/p2") "") ∧
    fetch_addressbook_url "http://h" "/p2" c4client1 c4dec =
      .ok "/fromBareHost" ∧
    fetch_addressbook_url "http://h" "/p2" c4client2 c4dec =
      .ok "/fromAccumulatedPath" ∧
    fetch_addressbook_url "http://h" "/p2" c4client1 c4dec ≠
      fetch_addressbook_url "http://h" "/p2" c4client2 c4dec := by
  refine ⟨rfl, rfl, rfl, fun h => ?_⟩
  rw [show fetch_addressbook_url "http://h" "/p2" c4client1 c4dec =
        .ok "/fromBareHost" from rfl,
      show fetch_addressbook_url "http://h" "/p2" c4client2 c4dec =
        .ok "/fromAccumulatedPath" from rfl] at h
  injection h with h'
  exact absurd h' (by decide)

/-- C4 amended: each stage's outcome is a function of the transport's
answer to the single request the stage sends — stages 1 and 2 send theirs
to `{host}{path}`, stage 3 sends its to the bare `host` (the path from
stage 2 serves only as stage 3's fallback). -/
theorem discovery_stage_request_targets (host path : String)
    (c1 c2 : HttpClient)
    (dec1 : Decoder CurrentUserPrincipalProp)
    (dec2 : Decoder AddressbookHomeSetProp)
    (dec3 : Decoder AddressbookProp) :
    (c1 (propfindRequest (host ++ path) currentUserPrincipalBody) =
       c2 (propfindRequest (host ++ path) currentUserPrincipalBody) →
      fetch_current_user_principal_url host path c1 dec1 =
        fetch_current_user_principal_url host path c2 dec1) ∧
    (c1 (propfindRequest (host ++ path) addressbookHomeSetBody) =
       c2 (propfindRequest (host ++ path) addressbookHomeSetBody) →
      fetch_addressbook_home_set_url host path c1 dec2 =
        fetch_addressbook_home_set_url host path c2 dec2) ∧
    (c1 (propfindRequest host "") = c2 (propfindRequest host "") →
      fetch_addressbook_url host path c1 dec3 =
        fetch_addressbook_url host path c2 dec3) := by
  refine ⟨fun h => ?_, fun h => ?_, fun h => ?_⟩ <;>
    simp [fetch_current_user_principal_url, fetch_addressbook_home_set_url,
      fetch_addressbook_url, h]

/-- Witness for the amended C4: transports agreeing at `{host}{path}` give
the same stage-1 result even though they differ at the bare host, and a
transport trivially agrees with itself at the bare host for stage 3. -/
theorem discovery_stage_request_targets_witness :
    fetch_current_user_principal_url "http://h" "/p2" c4client1 emptyDec1 =
      fetch_current_user_principal_url "http://h" "/p2" c4client2 emptyDec1 ∧
    fetch_addressbook_url "http://h" "/p2" c4client2 c4dec =
      fetch_addressbook_url "http://h" "/p2" c4client2 c4dec :=
  ⟨(discovery_stage_request_targets "http://h" "/p2" c4client1 c4client2
      emptyDec1 emptyDec2 c4dec).1 rfl,
   (discovery_stage_request_targets "http://h" "/p2" c4client2 c4client2
      emptyDec1 emptyDec2 c4dec).2.2 rfl⟩

/-- C5: semantic absence of a stage's expected property from a decoded
response is not an error — the stage succeeds with the input path. In the
decoded envelope the stage-1 and stage-2 property is mandatory per entry,
so its absence is the absence of entries; stage 3's absence is no entry
passing the 200-OK-and-marker filter. -/
theorem semantic_absence_falls_back (host path : String) (client : HttpClient)
    (dec1 : Decoder CurrentUserPrincipalProp)
    (dec2 : Decoder AddressbookHomeSetProp)
    (dec3 : Decoder AddressbookProp)
    (res1 res2 res3 : HttpResponse) (ms3 : Multistatus AddressbookProp) :
    (client (propfindRequest (host ++ path) currentUserPrincipalBody) =
        .ok res1 →
      dec1 res1.body = .ok { responses := [] } →
      fetch_current_user_principal_url host path client dec1 = .ok path) ∧
    (client (propfindRequest (host ++ path) addressbookHomeSetBody) =
        .ok res2 →
      dec2 res2.body = .ok { responses := [] } →
      fetch_addressbook_home_set_url host path client dec2 = .ok path) ∧
    (client (propfindRequest host "") = .ok res3 →
      dec3 res3.body = .ok ms3 →
      (∀ r ∈ ms3.responses, ¬ addressbookEntryValid r = true) →
      fetch_addressbook_url host path client dec3 = .ok path) := by
  refine ⟨fun h1 h2 => ?_, fun h1 h2 => ?_, fun h1 h2 h3 => ?_⟩
  · simp [fetch_current_user_principal_url, h1, h2, resolveCurrentUserPrincipal]
  · simp [fetch_addressbook_home_set_url, h1, h2, resolveAddressbookHomeSet]
  · have hfind : ms3.responses.find? addressbookEntryValid = none :=
      List.find?_eq_none.mpr h3
    simp [fetch_addressbook_url, h1, h2, resolveAddressbook, hfind]

/-- Witness for C5: a 207 response decoding to an empty envelope leaves the
path `"/"` unchanged in all three stages. -/
theorem semantic_absence_falls_back_witness :
    fetch_current_user_principal_url "http://h" "/" client207 emptyDec1 =
      .ok "/" ∧
    fetch_addressbook_home_set_url "http://h" "/" client207 emptyDec2 =
      .ok "/" ∧
    fetch_addressbook_url "http://h" "/" client207 emptyDec3 = .ok "/" :=
  ⟨(semantic_absence_falls_back "http://h" "/" client207 emptyDec1 emptyDec2
      emptyDec3 { status := 207, body := "" } { status := 207, body := "" }
      { status := 207, body := "" } { responses := [] }).1 rfl rfl,
   (semantic_absence_falls_back "http://h" "/" client207 emptyDec1 emptyDec2
      emptyDec3 { status := 207, body := "" } { status := 207, body := "" }
      { status := 207, body := "" } { responses := [] }).2.1 rfl rfl,
   (semantic_absence_falls_back "http://h" "/" client207 emptyDec1 emptyDec2
      emptyDec3 { status := 207, body := "" } { status := 207, body := "" }
      { status := 207, body := "" } { responses := [] }).2.2 rfl rfl
      (by simp)⟩

/-- C7: construction stores `host ++ resolved_path`; when every discovery
stage falls through, the resolved path is `"/"` and the repository's
`addressbook_path` is `host ++ "/"`. -/
theorem addressbook_path_fallback_and_composition (host : String)
    (client : HttpClient)
    (dec1 : Decoder CurrentUserPrincipalProp)
    (dec2 : Decoder AddressbookHomeSetProp)
    (dec3 : Decoder AddressbookProp) (p : String)
    (res1 res2 res3 : HttpResponse) (ms3 : Multistatus AddressbookProp) :
    (Everest.addressbook_path host client dec1 dec2 dec3 = .ok p →
      RemoteCardRepository.new host client dec1 dec2 dec3 =
        .ok { addressbook_path := host ++ p, client := client }) ∧
    (client (propfindRequest (host ++ "/") currentUserPrincipalBody) =
        .ok res1 →
      dec1 res1.body = .ok { responses := [] } →
      client (propfindRequest (host ++ "/") addressbookHomeSetBody) =
        .ok res2 →
      dec2 res2.body = .ok { responses := [] } →
      client (propfindRequest host "") = .ok res3 →
      dec3 res3.body = .ok ms3 →
      (∀ r ∈ ms3.responses, ¬ addressbookEntryValid r = true) →
      Everest.addressbook_path host client dec1 dec2 dec3 = .ok "/" ∧
      RemoteCardRepository.new host client dec1 dec2 dec3 =
        .ok { addressbook_path := host ++ "/", client := client }) := by
  constructor
  · intro h
    simp [RemoteCardRepository.new, h, except_map_ok]
  · intro h1 h2 h3 h4 h5 h6 h7
    have f1 : fetch_current_user_principal_url host "/" client dec1 = .ok "/" := by
      simp [fetch_current_user_principal_url, h1, h2, resolveCurrentUserPrincipal]
    have f2 : fetch_addressbook_home_set_url host "/" client dec2 = .ok "/" := by
      simp [fetch_addressbook_home_set_url, h3, h4, resolveAddressbookHomeSet]
    have hfind : ms3.responses.find? addressbookEntryValid = none :=
      List.find?_eq_none.mpr h7
    have f3 : fetch_addressbook_url host "/" client dec3 = .ok "/" := by
      simp [fetch_addressbook_url, h5, h6, resolveAddressbook, hfind]
    have hap : Everest.addressbook_path host client dec1 dec2 dec3 = .ok "/" := by
      simp [Everest.addressbook_path, f1, f2, f3, except_ok_bind]
    exact ⟨hap, by simp [RemoteCardRepository.new, hap, except_map_ok]⟩

/-- Witness for C7: against a transport whose responses decode to empty
envelopes, the resolved path is `"/"` and construction stores
`"http://h" ++ "/"`. -/
theorem addressbook_path_fallback_and_composition_witness :
    (Everest.addressbook_path "http://h" client207 emptyDec1 emptyDec2
        emptyDec3 = .ok "/" ∧
      RemoteCardRepository.new "http://h" client207 emptyDec1 emptyDec2
        emptyDec3 =
        .ok { addressbook_path := "http://h" ++ "/", client := client207 }) ∧
    RemoteCardRepository.new "http://h" client207 emptyDec1 emptyDec2
        emptyDec3 =
      .ok { addressbook_path := "http://h" ++ "/", client := client207 } :=
  ⟨(addressbook_path_fallback_and_composition "http://h" client207 emptyDec1
      emptyDec2 emptyDec3 "/" { status := 207, body := "" }
      { status := 207, body := "" } { status := 207, body := "" }
      { responses := [] }).2 rfl rfl rfl rfl rfl rfl (by simp),
   (addressbook_path_fallback_and_composition "http://h" client207 emptyDec1
      emptyDec2 emptyDec3 "/" { status := 207, body := "" }
      { status := 207, body := "" } { status := 207, body := "" }
      { responses := [] }).1 rfl⟩

end Everest
